import Mathlib

/-!
Verification development for the interpretation core of the
propertyintelligence dashboard: the rule-based query interpreter
(`parseQuery` in `src/dashboard/src/utils.ts`), the agent response
normalizer / action dispatcher (`processAgentResponse` ibid.), and the
fallback coordinator (`handleSearch` in `src/dashboard/src/App.tsx`).

The TypeScript source is shallowly embedded: JS strings become `String`,
JS arrays become `List`, integral JS numbers become `Int`, and the
fractional map coordinates become `ℚ` (IEEE-754 rounding is idealized as
exact rational arithmetic; no modelled property depends on rounding).
Dynamic (untyped) JSON values flowing through the agent path are embedded
by the `Js` inductive together with JS truthiness and field access.
-/

/-- The slice of the `Location` record (types.ts, enriched MDM variant)
that the interpretation core reads.  Presentation-only fields (zip, roof
type, letter grades, ...) are never read by `parseQuery` or
`processAgentResponse` and are omitted from the embedding. -/
structure DataConflict where
  field : String
  conflicting_source : String
deriving DecidableEq, Repr

/-- One entry of `enrichment_opportunities` as read by `parseQuery`. -/
structure Enrichment where
  type : String
  available : Bool
deriving DecidableEq, Repr

/-- A property record, restricted to the fields the interpretation core
reads.  Optional TS fields (`occupancy_desc?`, `named_insured?`) are
embedded as plain strings: every read in the source guards them with
optional chaining followed by a substring test, and an absent field
behaves exactly like `""` there. -/
structure Location where
  location_id : String
  address : String
  city : String
  state : String
  account_name : String
  named_insured : String
  occupancy_desc : String
  construction_code : String
  sprinkler_status : String
  has_recommendations : String
  total_tiv : Int
  hurricane : Int
  earthquake : Int
  flood_score : Int
  wildfire : Int
  tornado_hail : Int
  terrorism : Int
  surge_risk : Int
  total_claims : Int
  year_built : Int
  potential_duplicates : List String
  data_conflicts : List DataConflict
  enrichment_opportunities : List Enrichment
  nearmap_available : Bool
  submission_history : List String
  data_quality_issues : List String
deriving DecidableEq, Repr

/-- `ActiveFilter` from types.ts. -/
structure ActiveFilter where
  id : String
  label : String
  type : String
deriving DecidableEq, Repr

/-- `SearchResult` from types.ts: the keyword-path output contract. -/
structure SearchResult where
  locations : List Location
  filters : List ActiveFilter
  interpretation : String
deriving DecidableEq, Repr

/-- JS `String.prototype.includes` on char lists. -/
def listHasSub (pat : List Char) : List Char → Bool
  | [] => pat.isEmpty
  | c :: t => pat.isPrefixOf (c :: t) || listHasSub pat t

/-- JS `s.includes(pat)` (substring containment). -/
def strIncludes (s pat : String) : Bool :=
  listHasSub pat.data s.data

/-- JS `s.toLowerCase()`.  The spec fixes lower-casing to simple ASCII
letter mapping, which is `Char.toLower`. -/
def jsToLowerCase (s : String) : String :=
  String.mk (s.data.map Char.toLower)

/-- JS `s.trim()`: strip leading and trailing whitespace. -/
def jsTrim (s : String) : String :=
  String.mk (((s.data.dropWhile Char.isWhitespace).reverse.dropWhile Char.isWhitespace).reverse)

/-- Digits of a decimal numeral folded to a `Nat` (JS `parseInt` on a
digits-only capture). -/
def digitsVal (ds : List Char) : Nat :=
  ds.foldl (fun a c => a * 10 + (c.toNat - '0'.toNat)) 0

/-- `x.toFixed(d)` of ECMA-262: round to the nearest `d`-decimal value,
ties toward the larger value.  (IEEE intermediate rounding idealized.) -/
def toFixedQ (x : ℚ) (d : Nat) : String :=
  let scaled : ℤ := Int.floor (x * (10 : ℚ) ^ d + 1 / 2)
  if d = 0 then toString scaled
  else
    let n := scaled.natAbs
    let ip := n / 10 ^ d
    let fp := n % 10 ^ d
    let fpStr := toString fp
    let fpPad := String.mk (List.replicate (d - fpStr.length) '0') ++ fpStr
    (if scaled < 0 then "-" else "") ++ toString ip ++ "." ++ fpPad

/-- `formatCurrency` from utils.ts. -/
def formatCurrency (value : Int) : String :=
  if value ≥ 1000000000 then "$" ++ toFixedQ ((value : ℚ) / 1000000000) 2 ++ "B"
  else if value ≥ 1000000 then "$" ++ toFixedQ ((value : ℚ) / 1000000) 1 ++ "M"
  else if value ≥ 1000 then "$" ++ toFixedQ ((value : ℚ) / 1000) 0 ++ "K"
  else "$" ++ toFixedQ (value : ℚ) 0

/-- Does the regex `/over\s*\$?\d+\s*m/i` match starting exactly here?
(`q` is already lower-cased; backtracking the greedy `\d+` can never
succeed because the next character would again be a digit.) -/
def overNmAt : List Char → Bool
  | 'o' :: 'v' :: 'e' :: 'r' :: rest =>
    let rest := rest.dropWhile Char.isWhitespace
    let rest := match rest with
      | '$' :: r => r
      | r => r
    let ds := rest.takeWhile Char.isDigit
    if ds.isEmpty then false
    else
      match (rest.drop ds.length).dropWhile Char.isWhitespace with
      | 'm' :: _ => true
      | _ => false
  | _ => false

/-- `q.match(/over\s*\$?\d+\s*m/i) !== null`. -/
def matchOverNm : List Char → Bool
  | [] => false
  | c :: t => overNmAt (c :: t) || matchOverNm t

/-- Attempt of `/(\d+)\s*m/i` at the current position, returning the
captured digits. -/
def nmAt (l : List Char) : Option Nat :=
  let ds := l.takeWhile Char.isDigit
  if ds.isEmpty then none
  else
    match (l.drop ds.length).dropWhile Char.isWhitespace with
    | 'm' :: _ => some (digitsVal ds)
    | _ => none

/-- `q.match(/(\d+)\s*m/i)`: leftmost match, captured digits as a `Nat`. -/
def extractNm : List Char → Option Nat
  | [] => none
  | c :: t =>
    match nmAt (c :: t) with
    | some n => some n
    | none => extractNm t

/-- `[...new Set(xs)]`: deduplication keeping first occurrences in
insertion order. -/
def dedupFirst : List String → List String
  | [] => []
  | a :: l => a :: dedupFirst (l.filter (fun x => !(x == a)))
termination_by l => l.length
decreasing_by
  simp only [List.length_cons]
  exact Nat.lt_succ_of_le (List.length_filter_le _ _)

/-- Working state of the `parseQuery` loop: the narrowed record set, the
accumulated filter descriptors, and the interpretation fragments. -/
structure PQState where
  result : List Location
  filters : List ActiveFilter
  frags : List String
deriving Repr

/-- The repeated statement pattern of `parseQuery`:
`if (cond) { result = result.filter(p); filters.push(f); interpretations.push(frag); }`. -/
def condStep (cond : Bool) (p : Location → Bool) (f : ActiveFilter) (frag : String)
    (st : PQState) : PQState :=
  if cond then
    { result := st.result.filter p, filters := st.filters ++ [f], frags := st.frags ++ [frag] }
  else st

/-- The `stateMap` object literal of utils.ts, in insertion order
(`Object.entries` iterates string keys in insertion order). -/
def stateEntries : List (String × String) :=
  [("florida", "FL"), ("fl", "FL"),
   ("california", "CA"), ("ca", "CA"), ("cali", "CA"),
   ("texas", "TX"), ("tx", "TX"),
   ("new york", "NY"), ("ny", "NY"), ("nyc", "NY"), ("manhattan", "NY"),
   ("illinois", "IL"), ("il", "IL"), ("chicago", "IL"),
   ("massachusetts", "MA"), ("ma", "MA"), ("boston", "MA"),
   ("washington", "WA"), ("wa", "WA"), ("seattle", "WA"),
   ("new jersey", "NJ"), ("nj", "NJ"),
   ("georgia", "GA"), ("ga", "GA"), ("atlanta", "GA"),
   ("pennsylvania", "PA"), ("pa", "PA"), ("philadelphia", "PA"), ("philly", "PA"),
   ("miami", "FL"), ("brickell", "FL")]

/-- The `cityMap` object literal of utils.ts, in insertion order. -/
def cityEntries : List (String × String) :=
  [("times square", "New York"), ("midtown", "New York"),
   ("downtown la", "Los Angeles"), ("century city", "Los Angeles"),
   ("loop", "Chicago"), ("costa mesa", "Costa Mesa"),
   ("austin", "Austin"), ("dallas", "Dallas"), ("houston", "Houston"),
   ("jersey city", "Jersey City")]

/-- The state-keyword loop of `parseQuery` (first matching entry wins,
then `break`). -/
def stateStep (q : String) (st : PQState) : PQState :=
  match stateEntries.find? (fun e => strIncludes q e.1) with
  | some e =>
    { result := st.result.filter (fun l => decide (l.state = e.2)),
      filters := st.filters ++ [⟨"state-" ++ e.2, e.2, "state"⟩],
      frags := st.frags ++ [e.2] }
  | none => st

/-- The city-keyword loop of `parseQuery`. -/
def cityStep (q : String) (st : PQState) : PQState :=
  match cityEntries.find? (fun e => strIncludes q e.1) with
  | some e =>
    { result := st.result.filter (fun l => decide (l.city = e.2)),
      filters := st.filters ++ [⟨"city-" ++ e.2, e.2, "city"⟩],
      frags := st.frags ++ [e.2] }
  | none => st

/-- Hurricane peril filter block of `parseQuery`. -/
def hurricaneStep (q : String) (st : PQState) : PQState :=
  let highRisk := strIncludes q "high" || strIncludes q "severe" || strIncludes q "extreme"
  let threshold : Int := if highRisk then 7 else 5
  condStep (strIncludes q "hurricane" || strIncludes q "wind")
    (fun l => decide (l.hurricane ≥ threshold))
    ⟨"hurricane", "Hurricane ≥" ++ toString threshold, "peril"⟩
    "high hurricane risk" st

/-- Earthquake peril filter block. -/
def earthquakeStep (q : String) (st : PQState) : PQState :=
  let highRisk := strIncludes q "high" || strIncludes q "severe"
  let threshold : Int := if highRisk then 7 else 5
  condStep (strIncludes q "earthquake" || strIncludes q "seismic")
    (fun l => decide (l.earthquake ≥ threshold))
    ⟨"earthquake", "Earthquake ≥" ++ toString threshold, "peril"⟩
    "earthquake exposure" st

/-- Flood peril filter block. -/
def floodStep (q : String) (st : PQState) : PQState :=
  let highRisk := strIncludes q "high" || strIncludes q "zone a" || strIncludes q "severe"
  let threshold : Int := if highRisk then 5 else 3
  condStep (strIncludes q "flood")
    (fun l => decide (l.flood_score ≥ threshold))
    ⟨"flood", "Flood ≥" ++ toString threshold, "peril"⟩
    "flood risk" st

/-- Wildfire peril filter block. -/
def wildfireStep (q : String) (st : PQState) : PQState :=
  condStep (strIncludes q "wildfire" || strIncludes q "fire risk" || strIncludes q "brush")
    (fun l => decide (l.wildfire ≥ 4))
    ⟨"wildfire", "Wildfire ≥4", "peril"⟩
    "wildfire exposure" st

/-- Tornado/hail peril filter block. -/
def tornadoStep (q : String) (st : PQState) : PQState :=
  condStep (strIncludes q "tornado" || strIncludes q "hail" || strIncludes q "convective")
    (fun l => decide (l.tornado_hail ≥ 5))
    ⟨"tornado", "Tornado/Hail ≥5", "peril"⟩
    "tornado/hail risk" st

/-- Terrorism peril filter block. -/
def terrorismStep (q : String) (st : PQState) : PQState :=
  condStep (strIncludes q "terrorism" || strIncludes q "terror")
    (fun l => decide (l.terrorism ≥ 7))
    ⟨"terrorism", "Terrorism ≥7", "peril"⟩
    "terrorism exposure" st

/-- Storm-surge peril filter block. -/
def surgeStep (q : String) (st : PQState) : PQState :=
  condStep (strIncludes q "surge" || strIncludes q "storm surge" || strIncludes q "coastal")
    (fun l => decide (l.surge_risk ≥ 5))
    ⟨"surge", "Surge ≥5", "peril"⟩
    "storm surge risk" st

/-- High-TIV filter block (with the `<N>m` multiplier extraction). -/
def highTivStep (q : String) (st : PQState) : PQState :=
  let threshold : Int :=
    match extractNm q.data with
    | some n => (n : Int) * 1000000
    | none => 50000000
  condStep (strIncludes q "high value" || strIncludes q "large" || strIncludes q "big" ||
      matchOverNm q.data || strIncludes q "tiv over" || strIncludes q "above 50" ||
      strIncludes q "over 50")
    (fun l => decide (l.total_tiv ≥ threshold))
    ⟨"high-tiv", "TIV ≥" ++ formatCurrency threshold, "tiv"⟩
    "high value" st

/-- Low-TIV filter block. -/
def lowTivStep (q : String) (st : PQState) : PQState :=
  condStep (strIncludes q "small" || strIncludes q "low value" || strIncludes q "under 10" ||
      strIncludes q "below 10")
    (fun l => decide (l.total_tiv < 10000000))
    ⟨"low-tiv", "TIV <$10M", "tiv"⟩
    "smaller properties" st

/-- Sprinkler/protection filter block (negated and positive variants). -/
def sprinklerStep (q : String) (st : PQState) : PQState :=
  if strIncludes q "sprinkler" || strIncludes q "protected" || strIncludes q "fire protected" then
    if strIncludes q "no " || strIncludes q "not " || strIncludes q "without" ||
        strIncludes q "unprotected" || strIncludes q "non-sprinkler" then
      condStep true (fun l => decide (l.sprinkler_status ≠ "Fully Sprinklered"))
        ⟨"no-sprinkler", "Not Sprinklered", "protection"⟩ "not sprinklered" st
    else
      condStep true (fun l => decide (l.sprinkler_status = "Fully Sprinklered"))
        ⟨"sprinkler", "Sprinklered", "protection"⟩ "sprinklered" st
  else st

/-- Frame construction filter block. -/
def frameStep (q : String) (st : PQState) : PQState :=
  condStep (strIncludes q "frame" || strIncludes q "wood")
    (fun l => decide (l.construction_code = "1"))
    ⟨"frame", "Frame Construction", "construction"⟩
    "frame construction" st

/-- Fire-resistive construction filter block. -/
def fireResistiveStep (q : String) (st : PQState) : PQState :=
  condStep (strIncludes q "fire resistive" || strIncludes q "class 6" || strIncludes q "steel")
    (fun l => decide (l.construction_code = "6"))
    ⟨"fire-resistive", "Fire Resistive", "construction"⟩
    "fire resistive" st

/-- Masonry construction filter block. -/
def masonryStep (q : String) (st : PQState) : PQState :=
  condStep (strIncludes q "masonry")
    (fun l => decide (l.construction_code = "2" ∨ l.construction_code = "4"))
    ⟨"masonry", "Masonry", "construction"⟩
    "masonry construction" st

/-- Pre-1980 age filter block. -/
def oldStep (q : String) (st : PQState) : PQState :=
  condStep (strIncludes q "old" || strIncludes q "vintage" || strIncludes q "pre-1980" ||
      strIncludes q "before 1980" || strIncludes q "aging")
    (fun l => decide (l.year_built < 1980))
    ⟨"old", "Built before 1980", "age"⟩
    "older buildings" st

/-- Post-2010 age filter block. -/
def newStep (q : String) (st : PQState) : PQState :=
  condStep (strIncludes q "new" || strIncludes q "recent" || strIncludes q "modern" ||
      strIncludes q "after 2010" || strIncludes q "post-2010")
    (fun l => decide (l.year_built ≥ 2010))
    ⟨"new", "Built 2010+", "age"⟩
    "newer buildings" st

/-- Risk-control / recommendations filter block. -/
def recommendationsStep (q : String) (st : PQState) : PQState :=
  condStep (strIncludes q "recommendation" || strIncludes q "alert" || strIncludes q "action" ||
      strIncludes q "risk control" || strIncludes q "attention" || strIncludes q "issues" ||
      strIncludes q "concerns" || strIncludes q "gaps")
    (fun l => decide (l.has_recommendations = "Y"))
    ⟨"recommendations", "Has Alerts", "status"⟩
    "with recommendations" st

/-- Claims filter block (high / none / any three-way split). -/
def claimsStep (q : String) (st : PQState) : PQState :=
  if strIncludes q "claims" || strIncludes q "losses" || strIncludes q "loss history" then
    if strIncludes q "high" || strIncludes q "many" || strIncludes q "frequent" then
      condStep true (fun l => decide (l.total_claims ≥ 30))
        ⟨"high-claims", "Claims ≥30", "claims"⟩ "high claims" st
    else if strIncludes q "no " || strIncludes q "zero" || strIncludes q "clean" then
      condStep true (fun l => decide (l.total_claims = 0))
        ⟨"no-claims", "No Claims", "claims"⟩ "no claims" st
    else
      condStep true (fun l => decide (l.total_claims > 0))
        ⟨"has-claims", "Has Claims", "claims"⟩ "with claims" st
  else st

/-- Office occupancy filter block. -/
def officeStep (q : String) (st : PQState) : PQState :=
  condStep (strIncludes q "office")
    (fun l => strIncludes (jsToLowerCase l.occupancy_desc) "office")
    ⟨"office", "Office", "occupancy"⟩
    "office" st

/-- Retail occupancy filter block. -/
def retailStep (q : String) (st : PQState) : PQState :=
  condStep (strIncludes q "retail" || strIncludes q "mercantile" || strIncludes q "mall" ||
      strIncludes q "shopping")
    (fun l => strIncludes (jsToLowerCase l.occupancy_desc) "mercantile" ||
      strIncludes (jsToLowerCase l.occupancy_desc) "retail")
    ⟨"retail", "Retail", "occupancy"⟩
    "retail" st

/-- Warehouse occupancy filter block. -/
def warehouseStep (q : String) (st : PQState) : PQState :=
  condStep (strIncludes q "warehouse" || strIncludes q "distribution")
    (fun l => strIncludes (jsToLowerCase l.occupancy_desc) "warehouse")
    ⟨"warehouse", "Warehouse", "occupancy"⟩
    "warehouse" st

/-- High-rise occupancy filter block. -/
def highriseStep (q : String) (st : PQState) : PQState :=
  condStep (strIncludes q "high rise" || strIncludes q "highrise" || strIncludes q "tall" ||
      strIncludes q "tower")
    (fun l => strIncludes (jsToLowerCase l.occupancy_desc) "high rise")
    ⟨"highrise", "High Rise", "occupancy"⟩
    "high rise" st

/-- MDM duplicate-detection filter block. -/
def duplicatesStep (q : String) (st : PQState) : PQState :=
  condStep (strIncludes q "duplicate" || strIncludes q "duplicates" ||
      strIncludes q "potential match")
    (fun l => decide (l.potential_duplicates.length > 0))
    ⟨"duplicates", "Has Duplicates", "mdm"⟩
    "with potential duplicates" st

/-- MDM data-conflicts filter block. -/
def conflictsStep (q : String) (st : PQState) : PQState :=
  condStep (strIncludes q "conflict" || strIncludes q "conflicts" || strIncludes q "discrepan" ||
      strIncludes q "mismatch")
    (fun l => decide (l.data_conflicts.length > 0))
    ⟨"conflicts", "Has Conflicts", "mdm"⟩
    "with data conflicts" st

/-- MDM sprinkler-conflicts filter block. -/
def sprinklerConflictsStep (q : String) (st : PQState) : PQState :=
  condStep (strIncludes q "sprinkler conflict" || strIncludes q "sprinkler mismatch")
    (fun l => l.data_conflicts.any (fun c => decide (c.field = "sprinkler_status")))
    ⟨"sprinkler-conflicts", "Sprinkler Conflicts", "mdm"⟩
    "with sprinkler conflicts" st

/-- MDM enrichment-opportunities filter block.  JS `&&` binds tighter
than `||`, so the trigger is `enrich || enrichment || (need && data)`. -/
def enrichmentStep (q : String) (st : PQState) : PQState :=
  condStep (strIncludes q "enrich" || strIncludes q "enrichment" ||
      (strIncludes q "need" && strIncludes q "data"))
    (fun l => decide (l.enrichment_opportunities.length > 0))
    ⟨"enrichment", "Needs Enrichment", "mdm"⟩
    "needing enrichment" st

/-- MDM Nearmap filter block (enrichment-needed vs has-imagery variants). -/
def nearmapStep (q : String) (st : PQState) : PQState :=
  if strIncludes q "nearmap" then
    if strIncludes q "need" || strIncludes q "enrichment" || strIncludes q "missing" then
      condStep true
        (fun l => l.enrichment_opportunities.any (fun e => decide (e.type = "sqft") && e.available))
        ⟨"nearmap-enrich", "Nearmap Available", "mdm"⟩ "with Nearmap enrichment available" st
    else
      condStep true (fun l => l.nearmap_available)
        ⟨"nearmap", "Has Nearmap", "data"⟩ "with Nearmap imagery" st
  else st

/-- MDM ISO-report-conflicts filter block. -/
def isoStep (q : String) (st : PQState) : PQState :=
  condStep (strIncludes q "iso" && (strIncludes q "conflict" || strIncludes q "report"))
    (fun l => l.data_conflicts.any (fun c => strIncludes c.conflicting_source "ISO"))
    ⟨"iso-conflicts", "ISO Conflicts", "mdm"⟩
    "with ISO report conflicts" st

/-- MDM multiple-submissions filter block.  The trigger is
`(multiple && submis) || (submitted && (multiple || times))`. -/
def multiSubmitStep (q : String) (st : PQState) : PQState :=
  condStep ((strIncludes q "multiple" && strIncludes q "submis") ||
      (strIncludes q "submitted" && (strIncludes q "multiple" || strIncludes q "times")))
    (fun l => decide (l.submission_history.length > 1))
    ⟨"multi-submit", "Multiple Submissions", "mdm"⟩
    "submitted multiple times" st

/-- MDM stale-inspections filter block. -/
def staleStep (q : String) (st : PQState) : PQState :=
  condStep (strIncludes q "stale" ||
      (strIncludes q "inspection" && (strIncludes q "old" || strIncludes q "overdue")))
    (fun l => l.data_quality_issues.contains "stale_inspection")
    ⟨"stale-inspection", "Stale Inspection", "mdm"⟩
    "with stale inspections" st

/-- MDM missing-construction filter block. -/
def missingConstStep (q : String) (st : PQState) : PQState :=
  condStep (strIncludes q "missing" && strIncludes q "construction")
    (fun l => l.data_quality_issues.contains "missing_construction")
    ⟨"missing-const", "Missing Construction", "mdm"⟩
    "missing construction data" st

/-- `accName.toLowerCase().split(' ')[0].toLowerCase()` of the account
block. -/
def accountKeyword (accName : String) : String :=
  jsToLowerCase (String.mk ((jsToLowerCase accName).data.takeWhile (fun c => !(c == ' '))))

/-- Account / Customer-360 filter block: first account whose lower-cased
first word occurs in the query wins, then `break`.  The candidate names
are the deduplicated `account_name`s of the full record set. -/
def accountStep (q : String) (locations : List Location) (st : PQState) : PQState :=
  if strIncludes q "customer 360" || strIncludes q "account" ||
      (strIncludes q "show all" && strIncludes q "for") then
    match (dedupFirst (locations.map (fun l => l.account_name))).find?
        (fun accName => strIncludes q (accountKeyword accName)) with
    | some accName =>
      { result := st.result.filter (fun l => decide (l.account_name = accName)),
        filters := st.filters ++ [⟨"account-" ++ accName, accName, "account"⟩],
        frags := st.frags ++ [accName ++ " (Customer 360)"] }
    | none => st
  else st

/-- Healthcare/hospital filter block. -/
def healthcareStep (q : String) (st : PQState) : PQState :=
  condStep (strIncludes q "healthcare" || strIncludes q "hospital" || strIncludes q "medical")
    (fun l => strIncludes (jsToLowerCase l.occupancy_desc) "hospital" ||
      strIncludes (jsToLowerCase l.occupancy_desc) "medical" ||
      strIncludes (jsToLowerCase l.account_name) "medical" ||
      strIncludes (jsToLowerCase l.account_name) "health")
    ⟨"healthcare", "Healthcare", "occupancy"⟩
    "healthcare" st

/-- University/college filter block. -/
def universityStep (q : String) (st : PQState) : PQState :=
  condStep (strIncludes q "university" || strIncludes q "college" || strIncludes q "campus")
    (fun l => strIncludes (jsToLowerCase l.occupancy_desc) "college" ||
      strIncludes (jsToLowerCase l.occupancy_desc) "school" ||
      strIncludes (jsToLowerCase l.account_name) "university" ||
      strIncludes (jsToLowerCase l.account_name) "college")
    ⟨"university", "University", "occupancy"⟩
    "university/college" st

/-- Full-text fallback of `parseQuery`: only when no structured filter
fired, substring-match address/city/named-insured/location-id over the
original unfiltered set; adopt the matches only when non-empty.  The
interpretation fragment interpolates the original (untrimmed) query. -/
def fallbackStep (query q : String) (locations : List Location) (st : PQState) : PQState :=
  if st.filters.length = 0 then
    let addressMatch := locations.filter (fun l =>
      strIncludes (jsToLowerCase l.address) q || strIncludes (jsToLowerCase l.city) q ||
      strIncludes (jsToLowerCase l.named_insured) q || strIncludes (jsToLowerCase l.location_id) q)
    if addressMatch.length > 0 then
      { st with result := addressMatch,
                frags := st.frags ++ ["matching \"" ++ query ++ "\""] }
    else st
  else st

/-- The interpretation-synthesis tail of `parseQuery`. -/
def mkSearchResult (query : String) (st : PQState) : SearchResult :=
  let n := st.result.length
  let interpretation :=
    if n = 0 then "No locations match: " ++ query
    else if st.frags.length > 0 then
      toString n ++ " location" ++ (if n ≠ 1 then "s" else "") ++ ": " ++
        String.intercalate " + " st.frags
    else
      toString n ++ " location" ++ (if n ≠ 1 then "s" else "") ++ " found"
  ⟨st.result, st.filters, interpretation⟩

/-- `parseQuery` from utils.ts: normalize, short-circuit, then apply the
filter blocks in declaration order, then the full-text fallback, then
synthesize the interpretation string. -/
def parseQuery (query : String) (locations : List Location) : SearchResult :=
  let q := jsTrim (jsToLowerCase query)
  if q = "" || q = "all" || q = "reset" || q = "clear" || q = "show all" then
    ⟨locations, [], "Showing all locations"⟩
  else
    let st : PQState := ⟨locations, [], []⟩
    let st := stateStep q st
    let st := cityStep q st
    let st := hurricaneStep q st
    let st := earthquakeStep q st
    let st := floodStep q st
    let st := wildfireStep q st
    let st := tornadoStep q st
    let st := terrorismStep q st
    let st := surgeStep q st
    let st := highTivStep q st
    let st := lowTivStep q st
    let st := sprinklerStep q st
    let st := frameStep q st
    let st := fireResistiveStep q st
    let st := masonryStep q st
    let st := oldStep q st
    let st := newStep q st
    let st := recommendationsStep q st
    let st := claimsStep q st
    let st := officeStep q st
    let st := retailStep q st
    let st := warehouseStep q st
    let st := highriseStep q st
    let st := duplicatesStep q st
    let st := conflictsStep q st
    let st := sprinklerConflictsStep q st
    let st := enrichmentStep q st
    let st := nearmapStep q st
    let st := isoStep q st
    let st := multiSubmitStep q st
    let st := staleStep q st
    let st := missingConstStep q st
    let st := accountStep q locations st
    let st := healthcareStep q st
    let st := universityStep q st
    let st := fallbackStep query q locations st
    mkSearchResult query st

/-- A JSON/JS value as it flows through the agent path.  Numbers carry
their exact rational value (IEEE-754 rounding idealized; no modelled
property depends on it). -/
inductive Js where
  | null : Js
  | bool : Bool → Js
  | num : ℚ → Js
  | str : String → Js
  | arr : List Js → Js
  | obj : List (String × Js) → Js
deriving Inhabited

/-- JS property read `v[k]`: `none` models `undefined` (absent key or a
non-object receiver); with duplicate keys the later one wins, matching
`JSON.parse`. -/
def getField (v : Js) (k : String) : Option Js :=
  match v with
  | .obj fs => fs.foldl (fun acc e => if e.1 = k then some e.2 else acc) none
  | _ => none

/-- JS truthiness of a possibly-`undefined` value.  (JSON has no `NaN`,
so a number is falsy exactly when it is zero.) -/
def jsTruthy : Option Js → Bool
  | none => false
  | some .null => false
  | some (.bool b) => b
  | some (.num q) => decide (q ≠ 0)
  | some (.str s) => decide (s ≠ "")
  | some (.arr _) => true
  | some (.obj _) => true

/-- JS strict equality `v === s` against a known string. -/
def jsStrEq (v : Js) (s : String) : Bool :=
  match v with
  | .str t => decide (t = s)
  | _ => false

/-- `action.type === tag` as used by the dispatcher's `switch`. -/
def typeIs (action : Js) (tag : String) : Bool :=
  match getField action "type" with
  | some v => jsStrEq v tag
  | none => false

/-- `v.length > 0` on a JS value: arrays and strings have `length`,
anything else yields `undefined > 0` which is false. -/
def jsLenPos : Js → Bool
  | .arr xs => decide (xs.length > 0)
  | .str s => decide (s.length > 0)
  | _ => false

/-- `v.includes(x)` for a string `x`: array membership under `===` for
arrays, substring containment for strings (the only receivers that can
reach this call in the dispatcher). -/
def jsIncludes : Js → String → Bool
  | .arr xs, x => xs.any (fun e => jsStrEq e x)
  | .str s, x => strIncludes s x
  | _, _ => false

/-- Working display state folded over the action list by the dispatcher:
`{filteredLocs, selectedLoc, mapBounds}` of `processAgentResponse`. -/
structure DispState where
  filteredLocations : List Location
  selectedLocation : Option Location
  mapBounds : Option Js

/-- One iteration of the dispatcher's `switch (action.type)`.  Unknown
tags (and non-object actions) fall through to the default no-op. -/
def applyAction (allLocations : List Location) (st : DispState) (action : Js) : DispState :=
  if typeIs action "filter_locations" then
    match getField action "location_ids" with
    | some ids =>
      if jsTruthy (some ids) && jsLenPos ids then
        { st with filteredLocations :=
            allLocations.filter (fun loc => jsIncludes ids loc.location_id) }
      else st
    | none => st
  else if typeIs action "select_location" then
    match getField action "location_id" with
    | some v =>
      if jsTruthy (some v) then
        { st with selectedLocation :=
            allLocations.find? (fun loc => jsStrEq v loc.location_id) }
      else st
    | none => st
  else if typeIs action "zoom_map" then
    match getField action "bounds" with
    | some b => if jsTruthy (some b) then { st with mapBounds := some b } else st
    | none => st
  else if typeIs action "clear_filters" then
    { st with filteredLocations := allLocations }
  else if typeIs action "highlight_locations" then
    match getField action "location_ids" with
    | some ids =>
      if jsTruthy (some ids) && jsLenPos ids then
        { st with filteredLocations :=
            allLocations.filter (fun loc => jsIncludes ids loc.location_id) }
      else st
    | none => st
  else st

/-- `actions.forEach(...)` over the initial working state
`{filteredLocs: allLocations, selectedLoc: null, mapBounds: null}`. -/
def runActions (allLocations : List Location) (actions : List Js) : DispState :=
  actions.foldl (applyAction allLocations) ⟨allLocations, none, none⟩

/-- Number-to-string coercion for a JS template literal.  JS shortest
round-trip float printing is idealized: integral values print exactly as
in JS; a non-integral rational falls back to fraction notation.  (No
modelled claim evaluates this branch.) -/
def jsNumToString (q : ℚ) : String :=
  if q.den = 1 then toString q.num else toString q.num ++ "/" ++ toString q.den

/-- String coercion `String(v)` of a JS value (template literals):
array elements join with commas (`null` joining as the empty string),
objects print as `[object Object]`. -/
def jsToString : Js → String
  | .null => "null"
  | .bool b => if b then "true" else "false"
  | .num q => jsNumToString q
  | .str s => s
  | .arr xs =>
    String.intercalate "," (xs.attach.map (fun x =>
      match x with
      | ⟨.null, _⟩ => ""
      | ⟨y, _⟩ => jsToString y))
  | .obj _ => "[object Object]"

/-- Skip JSON insignificant whitespace. -/
def jsonWs (cs : List Char) : List Char :=
  cs.dropWhile (fun c => c = ' ' || c = '\t' || c = '\n' || c = '\r')

/-- Value of one hex digit. -/
def hexVal (c : Char) : Option Nat :=
  if '0' ≤ c ∧ c ≤ '9' then some (c.toNat - '0'.toNat)
  else if 'a' ≤ c ∧ c ≤ 'f' then some (c.toNat - 'a'.toNat + 10)
  else if 'A' ≤ c ∧ c ≤ 'F' then some (c.toNat - 'A'.toNat + 10)
  else none

/-- Value of a `\uXXXX` escape. -/
def hex4 (h1 h2 h3 h4 : Char) : Option Nat :=
  match hexVal h1, hexVal h2, hexVal h3, hexVal h4 with
  | some a, some b, some c, some d => some (((a * 16 + b) * 16 + c) * 16 + d)
  | _, _, _, _ => none

/-- Body of a JSON string after the opening quote; returns the decoded
characters and the input past the closing quote.  Surrogate pairs in
`\u` escapes are combined; a lone surrogate (representable in a JS
string but not in a Lean `String`) degrades to `U+0000`, a corner no
modelled claim reaches. -/
def parseJsonStringBody : Nat → List Char → Option (List Char × List Char)
  | 0, _ => none
  | f + 1, cs =>
    match cs with
    | [] => none
    | '"' :: rest => some ([], rest)
    | '\\' :: 'u' :: h1 :: h2 :: h3 :: h4 :: rest =>
      match hex4 h1 h2 h3 h4 with
      | none => none
      | some code =>
        if 0xD800 ≤ code ∧ code ≤ 0xDBFF then
          match rest with
          | '\\' :: 'u' :: g1 :: g2 :: g3 :: g4 :: rest2 =>
            match hex4 g1 g2 g3 g4 with
            | some low =>
              if 0xDC00 ≤ low ∧ low ≤ 0xDFFF then
                (parseJsonStringBody f rest2).map (fun p =>
                  (Char.ofNat (0x10000 + (code - 0xD800) * 0x400 + (low - 0xDC00)) :: p.1, p.2))
              else
                (parseJsonStringBody f rest).map (fun p => (Char.ofNat code :: p.1, p.2))
            | none => (parseJsonStringBody f rest).map (fun p => (Char.ofNat code :: p.1, p.2))
          | _ => (parseJsonStringBody f rest).map (fun p => (Char.ofNat code :: p.1, p.2))
        else
          (parseJsonStringBody f rest).map (fun p => (Char.ofNat code :: p.1, p.2))
    | '\\' :: e :: rest =>
      let dec : Option Char :=
        if e = '"' then some '"'
        else if e = '\\' then some '\\'
        else if e = '/' then some '/'
        else if e = 'b' then some (Char.ofNat 0x08)
        else if e = 'f' then some (Char.ofNat 0x0C)
        else if e = 'n' then some '\n'
        else if e = 'r' then some '\r'
        else if e = 't' then some '\t'
        else none
      match dec with
      | some d => (parseJsonStringBody f rest).map (fun p => (d :: p.1, p.2))
      | none => none
    | c :: rest =>
      if c.toNat < 0x20 then none
      else (parseJsonStringBody f rest).map (fun p => (c :: p.1, p.2))

/-- A JSON numeric literal: `-? (0 | [1-9][0-9]*) frac? exp?`, valued
exactly as a rational. -/
def parseJsonNumber (cs : List Char) : Option (ℚ × List Char) :=
  let (neg, cs1) :=
    match cs with
    | '-' :: r => (true, r)
    | r => (false, r)
  let intDigits :=
    match cs1 with
    | '0' :: _ => ['0']
    | r => r.takeWhile Char.isDigit
  if intDigits.isEmpty then none
  else if intDigits ≠ ['0'] && intDigits.head? = some '0' then none
  else
    let cs2 := cs1.drop intDigits.length
    let (fracDigits, cs3) :=
      match cs2 with
      | '.' :: r =>
        let ds := r.takeWhile Char.isDigit
        (ds, r.drop ds.length)
      | r => ([], r)
    if cs2 ≠ cs3 && fracDigits.isEmpty then none
    else
      let expPart : Option (Int × List Char) :=
        match cs3 with
        | 'e' :: r | 'E' :: r =>
          let (esign, r1) :=
            match r with
            | '+' :: r2 => (1, r2)
            | '-' :: r2 => (-1, r2)
            | r2 => (1, r2)
          let ds := r1.takeWhile Char.isDigit
          if ds.isEmpty then none
          else some (esign * (digitsVal ds : Int), r1.drop ds.length)
        | r => some (0, r)
      match expPart with
      | none => none
      | some (e, cs4) =>
        let mant : ℚ := (digitsVal (intDigits ++ fracDigits) : ℚ) / (10 : ℚ) ^ fracDigits.length
        let value := (if neg then -mant else mant) * (10 : ℚ) ^ e
        some (value, cs4)

mutual

/-- One JSON value (leading whitespace allowed), fuel-driven. -/
def parseJsonValue : Nat → List Char → Option (Js × List Char)
  | 0, _ => none
  | f + 1, cs =>
    match jsonWs cs with
    | 'n' :: 'u' :: 'l' :: 'l' :: rest => some (.null, rest)
    | 't' :: 'r' :: 'u' :: 'e' :: rest => some (.bool true, rest)
    | 'f' :: 'a' :: 'l' :: 's' :: 'e' :: rest => some (.bool false, rest)
    | '"' :: rest =>
      (parseJsonStringBody (f + 1) rest).map (fun p => (.str (String.mk p.1), p.2))
    | '[' :: rest =>
      match jsonWs rest with
      | ']' :: r => some (.arr [], r)
      | _ => (parseJsonElems f rest).map (fun p => (.arr p.1, p.2))
    | '{' :: rest =>
      match jsonWs rest with
      | '}' :: r => some (.obj [], r)
      | _ => (parseJsonMembers f rest).map (fun p => (.obj p.1, p.2))
    | rest => (parseJsonNumber rest).map (fun p => (.num p.1, p.2))

/-- Comma-separated array elements up to the closing bracket. -/
def parseJsonElems : Nat → List Char → Option (List Js × List Char)
  | 0, _ => none
  | f + 1, cs =>
    match parseJsonValue f cs with
    | some (v, rest) =>
      match jsonWs rest with
      | ',' :: r => (parseJsonElems f r).map (fun p => (v :: p.1, p.2))
      | ']' :: r => some ([v], r)
      | _ => none
    | none => none

/-- Comma-separated object members up to the closing brace. -/
def parseJsonMembers : Nat → List Char → Option (List (String × Js) × List Char)
  | 0, _ => none
  | f + 1, cs =>
    match jsonWs cs with
    | '"' :: r =>
      match parseJsonStringBody (f + 1) r with
      | some (k, r2) =>
        match jsonWs r2 with
        | ':' :: r3 =>
          match parseJsonValue f r3 with
          | some (v, r4) =>
            match jsonWs r4 with
            | ',' :: r5 => (parseJsonMembers f r5).map (fun p => ((String.mk k, v) :: p.1, p.2))
            | '}' :: r5 => some ([(String.mk k, v)], r5)
            | _ => none
          | none => none
        | _ => none
      | none => none
    | _ => none

end

/-- `JSON.parse` on a string: one JSON value and nothing but trailing
whitespace; `none` models the thrown `SyntaxError`.  (The fuel
`2 * length + 8` exceeds the recursion depth of any parse, which
advances past at least one character every two nested calls.) -/
def parseJson (s : String) : Option Js :=
  match parseJsonValue (2 * s.length + 8) s.data with
  | some (v, rest) => if (jsonWs rest).isEmpty then some v else none
  | none => none

/-- The `else if (agentResponse.metadata) ... else ...` tail of the
payload-shape selection in `processAgentResponse`. -/
def selectMeta (agentResponse : Js) : Js :=
  match getField agentResponse "metadata" with
  | some m => if jsTruthy (some m) then m else agentResponse
  | none => agentResponse

/-- `JSON.parse(v)` for a not-necessarily-string argument: JS coerces
the argument to a string first. -/
def jsonParseCoerce (v : Js) : Option Js :=
  match v with
  | .str s => parseJson s
  | w => parseJson (jsToString w)

/-- Shape selection of `processAgentResponse`: a truthy `response` field
is parsed as nested JSON (a parse failure is caught and degrades to
`{}`), else a truthy `metadata` field is used directly, else the whole
payload is the object. -/
def normalizeEnvelope (agentResponse : Js) : Js :=
  match getField agentResponse "response" with
  | some v =>
    if jsTruthy (some v) then (jsonParseCoerce v).getD (.obj [])
    else selectMeta agentResponse
  | none => selectMeta agentResponse

/-- `result[k] || dflt`. -/
def fieldOr (result : Js) (k : String) (dflt : Js) : Js :=
  match getField result k with
  | some v => if jsTruthy (some v) then v else dflt
  | none => dflt

/-- `AgentResult` from types.ts: the AI-path output contract.
`mapBounds` and `suggestions` hold the raw JS values the source passes
through. -/
structure AgentResult where
  filteredLocations : List Location
  selectedLocation : Option Location
  interpretation : String
  mapBounds : Option Js
  suggestions : Js

/-- `processAgentResponse` from utils.ts: select the payload shape,
default the three normalized fields, fold the action list, and package
the result with the `🤖 ` agent marker.  The `Except` layer models the
one uncaught way the function can throw: calling `.forEach` on a truthy
non-array `actions` value. -/
def processAgentResponse (agentResponse : Js) (allLocations : List Location) :
    Except String AgentResult :=
  let result := normalizeEnvelope agentResponse
  let responseText := fieldOr result "response_text" (.str "")
  let actions := fieldOr result "actions" (.arr [])
  let suggestions := fieldOr result "follow_up_suggestions" (.arr [])
  match actions with
  | .arr acts =>
    let st := runActions allLocations acts
    .ok ⟨st.filteredLocations, st.selectedLocation,
      "🤖 " ++ jsToString responseText, st.mapBounds, suggestions⟩
  | _ => .error "actions.forEach is not a function"

/-- Outcome of the remote agent call as observed by `handleSearch`:
either an HTTP response (with its `ok` flag and JSON body) or a
transport error. -/
inductive RemoteOutcome where
  | httpResponse (ok : Bool) (body : Js)
  | transportError

/-- The `catch` branch of `handleSearch` (App.tsx): run the keyword
interpreter and prepend the degraded-mode warning marker to its
interpretation. -/
def degradedFallback (query : String) (locations : List Location) :
    List Location × List ActiveFilter × String :=
  let result := parseQuery query locations
  (result.locations, result.filters,
    "⚠️ AI unavailable, using keyword search: " ++ result.interpretation)

/-- `handleSearch` from App.tsx, modelled as a function of the remote
outcome; the returned triple is the (filtered, activeFilters,
interpretation) state it sets.  In AI-mode a non-ok status throws into
the same `catch` as a transport error or a processing throw; in
keyword-mode the interpreter runs directly. -/
def handleSearchModel (aiMode : Bool) (remote : RemoteOutcome) (query : String)
    (locations : List Location) : List Location × List ActiveFilter × String :=
  if aiMode then
    match remote with
    | .httpResponse ok body =>
      if ok then
        match processAgentResponse body locations with
        | .ok processed => (processed.filteredLocations, [], processed.interpretation)
        | .error _ => degradedFallback query locations
      else degradedFallback query locations
    | .transportError => degradedFallback query locations
  else
    let result := parseQuery query locations
    (result.locations, result.filters, result.interpretation)

/-- The viewport-resolution step of `handleSearch` for explicit agent
bounds (App.tsx lines 374-381): pad a degenerate axis by the fixed
epsilon `0.05` and fit the rectangle
`[[west - lngPadding, south - latPadding], [east + lngPadding, north + latPadding]]`.
Returned as (south-west corner, north-east corner). -/
def padFitBounds (north south east west : ℚ) : (ℚ × ℚ) × (ℚ × ℚ) :=
  let latPadding : ℚ := if north = south then 0.05 else 0
  let lngPadding : ℚ := if east = west then 0.05 else 0
  ((west - lngPadding, south - latPadding), (east + lngPadding, north + latPadding))

/-! ### Concrete records and wire actions used by the claim examples -/

/-- A neutral record used to build concrete test records. -/
def baseLoc : Location :=
  ⟨"", "", "", "", "", "", "", "", "", "", 0, 0, 0, 0, 0, 0, 0, 0, 0, 0, [], [], [], false, [], []⟩

/-- Record "C" of the C1 example: two potential-duplicate entries. -/
def dupLocC : Location :=
  { baseLoc with location_id := "LOC-C", state := "FL",
                 potential_duplicates := ["dup-1", "dup-2"] }

/-- Record "D" of the C1 example: no potential duplicates. -/
def dupLocD : Location :=
  { baseLoc with location_id := "LOC-D", state := "FL" }

/-- Record "A" of the C4 example. -/
def flLocA : Location :=
  { baseLoc with location_id := "LOC-A", state := "FL", hurricane := 8 }

/-- Record "B" of the C4 example. -/
def flLocB : Location :=
  { baseLoc with location_id := "LOC-B", state := "FL", hurricane := 2 }

/-- The `filter_locations` wire action of the C5 example. -/
def filterAct5 : Js :=
  .obj [("type", .str "filter_locations"), ("location_ids", .arr [.str "LOC-5"])]

/-- The `select_location` wire action of the C5 example. -/
def selectAct5 : Js :=
  .obj [("type", .str "select_location"), ("location_id", .str "LOC-5")]

/-- The record "LOC-5" of the C5 example. -/
def loc5 : Location := { baseLoc with location_id := "LOC-5" }

/-- A second record so the C5 witness store is not a singleton. -/
def loc9 : Location := { baseLoc with location_id := "LOC-9" }

/-- The `highlight_locations` wire action of the C7 witness. -/
def highlightAct5 : Js :=
  .obj [("type", .str "highlight_locations"), ("location_ids", .arr [.str "LOC-5"])]

/-- The degenerate bounds object of the C2 example. -/
def zoomBoundsJs : Js :=
  .obj [("north", .num 40), ("south", .num 40), ("east", .num (-73)), ("west", .num (-73))]

/-- The `zoom_map` wire action of the C2 example. -/
def zoomActionJs : Js :=
  .obj [("type", .str "zoom_map"), ("bounds", zoomBoundsJs)]

/-- An envelope whose `response` field is the empty string (not valid
JSON, but falsy in JS) and whose `metadata` carries real actions. -/
def badEnv : Js :=
  .obj [("response", .str ""),
        ("metadata", .obj [("response_text", .str "hi"), ("actions", .arr [filterAct5])])]

/-! ### Narrowing lemmas for the filter chain -/

theorem condStep_result_subset {R : List Location} (c : Bool) (p : Location → Bool)
    (f : ActiveFilter) (g : String) (st : PQState) (h : st.result ⊆ R) :
    (condStep c p f g st).result ⊆ R := by
  unfold condStep
  split
  · exact (List.filter_subset' _).trans h
  · exact h

theorem stateStep_subset {R : List Location} (q : String) (st : PQState)
    (h : st.result ⊆ R) : (stateStep q st).result ⊆ R := by
  unfold stateStep
  split
  · exact (List.filter_subset' _).trans h
  · exact h

theorem cityStep_subset {R : List Location} (q : String) (st : PQState)
    (h : st.result ⊆ R) : (cityStep q st).result ⊆ R := by
  unfold cityStep
  split
  · exact (List.filter_subset' _).trans h
  · exact h

theorem hurricaneStep_subset {R : List Location} (q : String) (st : PQState)
    (h : st.result ⊆ R) : (hurricaneStep q st).result ⊆ R :=
  condStep_result_subset _ _ _ _ _ h

theorem earthquakeStep_subset {R : List Location} (q : String) (st : PQState)
    (h : st.result ⊆ R) : (earthquakeStep q st).result ⊆ R :=
  condStep_result_subset _ _ _ _ _ h

theorem floodStep_subset {R : List Location} (q : String) (st : PQState)
    (h : st.result ⊆ R) : (floodStep q st).result ⊆ R :=
  condStep_result_subset _ _ _ _ _ h

theorem wildfireStep_subset {R : List Location} (q : String) (st : PQState)
    (h : st.result ⊆ R) : (wildfireStep q st).result ⊆ R :=
  condStep_result_subset _ _ _ _ _ h

theorem tornadoStep_subset {R : List Location} (q : String) (st : PQState)
    (h : st.result ⊆ R) : (tornadoStep q st).result ⊆ R :=
  condStep_result_subset _ _ _ _ _ h

theorem terrorismStep_subset {R : List Location} (q : String) (st : PQState)
    (h : st.result ⊆ R) : (terrorismStep q st).result ⊆ R :=
  condStep_result_subset _ _ _ _ _ h

theorem surgeStep_subset {R : List Location} (q : String) (st : PQState)
    (h : st.result ⊆ R) : (surgeStep q st).result ⊆ R :=
  condStep_result_subset _ _ _ _ _ h

theorem highTivStep_subset {R : List Location} (q : String) (st : PQState)
    (h : st.result ⊆ R) : (highTivStep q st).result ⊆ R :=
  condStep_result_subset _ _ _ _ _ h

theorem lowTivStep_subset {R : List Location} (q : String) (st : PQState)
    (h : st.result ⊆ R) : (lowTivStep q st).result ⊆ R :=
  condStep_result_subset _ _ _ _ _ h

theorem sprinklerStep_subset {R : List Location} (q : String) (st : PQState)
    (h : st.result ⊆ R) : (sprinklerStep q st).result ⊆ R := by
  unfold sprinklerStep
  split
  · split
    · exact condStep_result_subset _ _ _ _ _ h
    · exact condStep_result_subset _ _ _ _ _ h
  · exact h

theorem frameStep_subset {R : List Location} (q : String) (st : PQState)
    (h : st.result ⊆ R) : (frameStep q st).result ⊆ R :=
  condStep_result_subset _ _ _ _ _ h

theorem fireResistiveStep_subset {R : List Location} (q : String) (st : PQState)
    (h : st.result ⊆ R) : (fireResistiveStep q st).result ⊆ R :=
  condStep_result_subset _ _ _ _ _ h

theorem masonryStep_subset {R : List Location} (q : String) (st : PQState)
    (h : st.result ⊆ R) : (masonryStep q st).result ⊆ R :=
  condStep_result_subset _ _ _ _ _ h

theorem oldStep_subset {R : List Location} (q : String) (st : PQState)
    (h : st.result ⊆ R) : (oldStep q st).result ⊆ R :=
  condStep_result_subset _ _ _ _ _ h

theorem newStep_subset {R : List Location} (q : String) (st : PQState)
    (h : st.result ⊆ R) : (newStep q st).result ⊆ R :=
  condStep_result_subset _ _ _ _ _ h

theorem recommendationsStep_subset {R : List Location} (q : String) (st : PQState)
    (h : st.result ⊆ R) : (recommendationsStep q st).result ⊆ R :=
  condStep_result_subset _ _ _ _ _ h

theorem claimsStep_subset {R : List Location} (q : String) (st : PQState)
    (h : st.result ⊆ R) : (claimsStep q st).result ⊆ R := by
  unfold claimsStep
  split
  · split
    · exact condStep_result_subset _ _ _ _ _ h
    · split
      · exact condStep_result_subset _ _ _ _ _ h
      · exact condStep_result_subset _ _ _ _ _ h
  · exact h

theorem officeStep_subset {R : List Location} (q : String) (st : PQState)
    (h : st.result ⊆ R) : (officeStep q st).result ⊆ R :=
  condStep_result_subset _ _ _ _ _ h

theorem retailStep_subset {R : List Location} (q : String) (st : PQState)
    (h : st.result ⊆ R) : (retailStep q st).result ⊆ R :=
  condStep_result_subset _ _ _ _ _ h

theorem warehouseStep_subset {R : List Location} (q : String) (st : PQState)
    (h : st.result ⊆ R) : (warehouseStep q st).result ⊆ R :=
  condStep_result_subset _ _ _ _ _ h

theorem highriseStep_subset {R : List Location} (q : String) (st : PQState)
    (h : st.result ⊆ R) : (highriseStep q st).result ⊆ R :=
  condStep_result_subset _ _ _ _ _ h

theorem duplicatesStep_subset {R : List Location} (q : String) (st : PQState)
    (h : st.result ⊆ R) : (duplicatesStep q st).result ⊆ R :=
  condStep_result_subset _ _ _ _ _ h

theorem conflictsStep_subset {R : List Location} (q : String) (st : PQState)
    (h : st.result ⊆ R) : (conflictsStep q st).result ⊆ R :=
  condStep_result_subset _ _ _ _ _ h

theorem sprinklerConflictsStep_subset {R : List Location} (q : String) (st : PQState)
    (h : st.result ⊆ R) : (sprinklerConflictsStep q st).result ⊆ R :=
  condStep_result_subset _ _ _ _ _ h

theorem enrichmentStep_subset {R : List Location} (q : String) (st : PQState)
    (h : st.result ⊆ R) : (enrichmentStep q st).result ⊆ R :=
  condStep_result_subset _ _ _ _ _ h

theorem nearmapStep_subset {R : List Location} (q : String) (st : PQState)
    (h : st.result ⊆ R) : (nearmapStep q st).result ⊆ R := by
  unfold nearmapStep
  split
  · split
    · exact condStep_result_subset _ _ _ _ _ h
    · exact condStep_result_subset _ _ _ _ _ h
  · exact h

theorem isoStep_subset {R : List Location} (q : String) (st : PQState)
    (h : st.result ⊆ R) : (isoStep q st).result ⊆ R :=
  condStep_result_subset _ _ _ _ _ h

theorem multiSubmitStep_subset {R : List Location} (q : String) (st : PQState)
    (h : st.result ⊆ R) : (multiSubmitStep q st).result ⊆ R :=
  condStep_result_subset _ _ _ _ _ h

theorem staleStep_subset {R : List Location} (q : String) (st : PQState)
    (h : st.result ⊆ R) : (staleStep q st).result ⊆ R :=
  condStep_result_subset _ _ _ _ _ h

theorem missingConstStep_subset {R : List Location} (q : String) (st : PQState)
    (h : st.result ⊆ R) : (missingConstStep q st).result ⊆ R :=
  condStep_result_subset _ _ _ _ _ h

theorem accountStep_subset {R : List Location} (q : String) (L : List Location)
    (st : PQState) (h : st.result ⊆ R) : (accountStep q L st).result ⊆ R := by
  unfold accountStep
  split
  · split
    · exact (List.filter_subset' _).trans h
    · exact h
  · exact h

theorem healthcareStep_subset {R : List Location} (q : String) (st : PQState)
    (h : st.result ⊆ R) : (healthcareStep q st).result ⊆ R :=
  condStep_result_subset _ _ _ _ _ h

theorem universityStep_subset {R : List Location} (q : String) (st : PQState)
    (h : st.result ⊆ R) : (universityStep q st).result ⊆ R :=
  condStep_result_subset _ _ _ _ _ h

theorem fallbackStep_subset (query q : String) (L : List Location) (st : PQState)
    (h : st.result ⊆ L) : (fallbackStep query q L st).result ⊆ L := by
  unfold fallbackStep
  split
  · dsimp only
    split
    · exact List.filter_subset' _
    · exact h
  · exact h

/-! ### Claim theorems -/

/-- C3: for every query string `q` and record set `R`, the `locations`
field of `parseQuery q R` is a subset of `R` — every predicate
application and the full-text fallback only narrow, never add records
outside `R`. -/
theorem parseQuery_locations_subset (q : String) (R : List Location) :
    (parseQuery q R).locations ⊆ R := by
  unfold parseQuery
  dsimp only
  split
  · exact fun x hx => hx
  · refine fallbackStep_subset _ _ _ _ ?_
    refine universityStep_subset _ _ ?_
    refine healthcareStep_subset _ _ ?_
    refine accountStep_subset _ _ _ ?_
    refine missingConstStep_subset _ _ ?_
    refine staleStep_subset _ _ ?_
    refine multiSubmitStep_subset _ _ ?_
    refine isoStep_subset _ _ ?_
    refine nearmapStep_subset _ _ ?_
    refine enrichmentStep_subset _ _ ?_
    refine sprinklerConflictsStep_subset _ _ ?_
    refine conflictsStep_subset _ _ ?_
    refine duplicatesStep_subset _ _ ?_
    refine highriseStep_subset _ _ ?_
    refine warehouseStep_subset _ _ ?_
    refine retailStep_subset _ _ ?_
    refine officeStep_subset _ _ ?_
    refine claimsStep_subset _ _ ?_
    refine recommendationsStep_subset _ _ ?_
    refine newStep_subset _ _ ?_
    refine oldStep_subset _ _ ?_
    refine masonryStep_subset _ _ ?_
    refine fireResistiveStep_subset _ _ ?_
    refine frameStep_subset _ _ ?_
    refine sprinklerStep_subset _ _ ?_
    refine lowTivStep_subset _ _ ?_
    refine highTivStep_subset _ _ ?_
    refine surgeStep_subset _ _ ?_
    refine terrorismStep_subset _ _ ?_
    refine tornadoStep_subset _ _ ?_
    refine wildfireStep_subset _ _ ?_
    refine floodStep_subset _ _ ?_
    refine earthquakeStep_subset _ _ ?_
    refine hurricaneStep_subset _ _ ?_
    refine cityStep_subset _ _ ?_
    refine stateStep_subset _ _ ?_
    exact fun x hx => hx

/-- Witness for C3 at a concrete query and store. -/
theorem parseQuery_locations_subset_witness :
    (parseQuery "flood"
        [⟨"L1", "", "", "FL", "", "", "", "", "", "", 0, 0, 0, 5, 0, 0, 0, 0, 0, 0,
          [], [], [], false, [], []⟩]).locations ⊆
      [⟨"L1", "", "", "FL", "", "", "", "", "", "", 0, 0, 0, 5, 0, 0, 0, 0, 0, 0,
        [], [], [], false, [], []⟩] :=
  parseQuery_locations_subset "flood" _

/-- C9: the empty query and the literal queries "all", "reset", "clear"
and "show all" short-circuit every predicate and all return
`{locations: R, filters: [], interpretation: "Showing all locations"}`. -/
theorem parseQuery_short_circuit (R : List Location) :
    parseQuery "" R = ⟨R, [], "Showing all locations"⟩ ∧
    parseQuery "all" R = ⟨R, [], "Showing all locations"⟩ ∧
    parseQuery "reset" R = ⟨R, [], "Showing all locations"⟩ ∧
    parseQuery "clear" R = ⟨R, [], "Showing all locations"⟩ ∧
    parseQuery "show all" R = ⟨R, [], "Showing all locations"⟩ ∧
    parseQuery "" R = parseQuery "all" R :=
  ⟨rfl, rfl, rfl, rfl, rfl, rfl⟩

/-- C10: on the query "flood" the state keyword "fl" fires as a
substring of "flood", so the Florida state filter applies in addition to
the flood peril filter: the locations are exactly the records with state
"FL" and flood score at least 3, and the filter descriptors are
`state-FL` followed by `flood`. -/
theorem parseQuery_flood_state_collision (R : List Location) :
    (parseQuery "flood" R).locations =
      R.filter (fun l => decide (l.state = "FL" ∧ l.flood_score ≥ 3)) ∧
    (parseQuery "flood" R).filters =
      [⟨"state-FL", "FL", "state"⟩, ⟨"flood", "Flood ≥3", "peril"⟩] := by
  constructor
  · show (R.filter (fun l => decide (l.state = "FL"))).filter
        (fun l => decide (l.flood_score ≥ (3 : Int))) = _
    rw [List.filter_filter]
    simp only [Bool.decide_and, Bool.and_comm]
  · rfl

/-- C1 counterexample: for the store `[C, D]` with `C` carrying two
potential duplicates and `D` none, `parseQuery "duplicate locations"`
does **not** return `locations = [C]` with the single `duplicates`
filter: the state keyword "ca" matches inside "duplicate", so a
`state-CA` filter fires first and the result is empty. -/
theorem parseQuery_duplicate_locations_counterexample :
    (parseQuery "duplicate locations" [dupLocC, dupLocD]).locations = [] ∧
    (parseQuery "duplicate locations" [dupLocC, dupLocD]).filters.map ActiveFilter.id =
      ["state-CA", "duplicates"] ∧
    (parseQuery "duplicate locations" [dupLocC, dupLocD]).locations ≠ [dupLocC] ∧
    (parseQuery "duplicate locations" [dupLocC, dupLocD]).filters.map ActiveFilter.id ≠
      ["duplicates"] := by
  refine ⟨?_, rfl, ?_, ?_⟩ <;> decide

/-- C1 as amended: for every record set `R`,
`parseQuery "duplicate locations" R` applies the `state-CA` filter (the
keyword "ca" occurs inside "duplicate") followed by the `duplicates`
filter, so it returns exactly the records of `R` with state "CA" and a
non-empty `potential_duplicates` list, with filter descriptors
`state-CA` then `duplicates`. -/
theorem parseQuery_duplicate_locations_amended (R : List Location) :
    (parseQuery "duplicate locations" R).locations =
      R.filter (fun l => decide (l.state = "CA" ∧ l.potential_duplicates.length > 0)) ∧
    (parseQuery "duplicate locations" R).filters =
      [⟨"state-CA", "CA", "state"⟩, ⟨"duplicates", "Has Duplicates", "mdm"⟩] := by
  constructor
  · show (R.filter (fun l => decide (l.state = "CA"))).filter
        (fun l => decide (l.potential_duplicates.length > 0)) = _
    rw [List.filter_filter]
    simp only [Bool.decide_and, Bool.and_comm]
  · rfl

/-- C4: for a store of exactly a record `A` (state "FL", hurricane 8)
and a record `B` (state "FL", hurricane 2), the query
"Florida hurricane risk" returns locations `[A]`, filter descriptors
`state-FL` then `hurricane`, and an interpretation mentioning "FL" and
"high hurricane risk"; only the first matching state entry ("florida")
fires even though "ca" also occurs inside "hurricane". -/
theorem parseQuery_florida_hurricane (A B : Location)
    (hA1 : A.state = "FL") (hA2 : A.hurricane = 8)
    (hB1 : B.state = "FL") (hB2 : B.hurricane = 2) :
    (parseQuery "Florida hurricane risk" [A, B]).locations = [A] ∧
    (parseQuery "Florida hurricane risk" [A, B]).filters.map ActiveFilter.id =
      ["state-FL", "hurricane"] ∧
    strIncludes (parseQuery "Florida hurricane risk" [A, B]).interpretation "FL" = true ∧
    strIncludes (parseQuery "Florida hurricane risk" [A, B]).interpretation
      "high hurricane risk" = true := by
  have h1 : [A, B].filter (fun l => decide (l.state = "FL")) = [A, B] := by
    simp [List.filter, hA1, hB1]
  have key : parseQuery "Florida hurricane risk" [A, B] =
      mkSearchResult "Florida hurricane risk"
        ⟨([A, B].filter (fun l => decide (l.state = "FL"))).filter
            (fun l => decide (l.hurricane ≥ (5 : Int))),
          [⟨"state-FL", "FL", "state"⟩, ⟨"hurricane", "Hurricane ≥5", "peril"⟩],
          ["FL", "high hurricane risk"]⟩ := rfl
  have h2 : [A, B].filter (fun l => decide (l.hurricane ≥ (5 : Int))) = [A] := by
    simp [List.filter, hA2, hB2]
  rw [key, h1, h2]
  refine ⟨rfl, rfl, ?_, ?_⟩ <;>
    · unfold mkSearchResult
      simp only [List.length_cons, List.length_nil]
      rfl

/-- Witness for C4 at the concrete records `flLocA`, `flLocB`. -/
theorem parseQuery_florida_hurricane_witness :
    (parseQuery "Florida hurricane risk" [flLocA, flLocB]).locations = [flLocA] ∧
    (parseQuery "Florida hurricane risk" [flLocA, flLocB]).filters.map ActiveFilter.id =
      ["state-FL", "hurricane"] ∧
    strIncludes (parseQuery "Florida hurricane risk" [flLocA, flLocB]).interpretation
      "FL" = true ∧
    strIncludes (parseQuery "Florida hurricane risk" [flLocA, flLocB]).interpretation
      "high hurricane risk" = true :=
  parseQuery_florida_hurricane flLocA flLocB rfl rfl rfl rfl
theorem find?_eq_of_filter_singleton {α : Type} {p : α → Bool} {l : List α} {r : α}
    (h : l.filter p = [r]) : l.find? p = some r := by
  induction l with
  | nil => simp at h
  | cons a t ih =>
    by_cases ha : p a
    · rw [List.filter_cons_of_pos ha] at h
      rw [List.find?_cons_of_pos _ ha]
      simp only [List.cons.injEq] at h
      exact congrArg some h.1
    · rw [List.filter_cons_of_neg ha] at h
      rw [List.find?_cons_of_neg _ ha]
      exact ih h

theorem jsIncludes_map_str (ids : List String) (s : String) :
    jsIncludes (.arr (ids.map Js.str)) s = decide (s ∈ ids) := by
  induction ids with
  | nil => rfl
  | cons a t ih =>
    show (jsStrEq (Js.str a) s || (t.map Js.str).any (fun e => jsStrEq e s)) =
      decide (s ∈ a :: t)
    rw [show jsStrEq (Js.str a) s = decide (s = a) from by simp [jsStrEq, eq_comm]]
    rw [show (t.map Js.str).any (fun e => jsStrEq e s) = decide (s ∈ t) from ih]
    simp [List.mem_cons, Bool.decide_or]

/-- C5: a `filter_locations` action with a non-empty id list sets
`filteredLocations` to exactly the records of the full store whose id is
in the list (computed from the full store, not the working set); with an
empty id list it is a no-op; a `select_location` action whose id names a
(unique) record of the store selects that record; and the composed
example `dispatch([filter_locations ["LOC-5"], select_location "LOC-5"])`
yields `filteredLocations = [record LOC-5]` and
`selectedLocation = record LOC-5`. -/
theorem dispatch_filter_select_semantics (all : List Location) (st : DispState)
    (a : Js) (ids : List String) :
    (getField a "type" = some (.str "filter_locations") →
      getField a "location_ids" = some (.arr (ids.map Js.str)) → ids ≠ [] →
      (applyAction all st a).filteredLocations =
        all.filter (fun l => decide (l.location_id ∈ ids))) ∧
    (getField a "type" = some (.str "filter_locations") →
      getField a "location_ids" = some (.arr []) →
      applyAction all st a = st) ∧
    (∀ id r, getField a "type" = some (.str "select_location") →
      getField a "location_id" = some (.str id) → id ≠ "" →
      all.filter (fun l => decide (l.location_id = id)) = [r] →
      (applyAction all st a).selectedLocation = some r) ∧
    (∀ r, all.filter (fun l => decide (l.location_id = "LOC-5")) = [r] →
      runActions all [filterAct5, selectAct5] = ⟨[r], some r, none⟩) := by
  refine ⟨?_, ?_, ?_, ?_⟩
  · intro ht hids hne
    have hlen : jsLenPos (.arr (ids.map Js.str)) = true := by
      simp [jsLenPos, List.length_pos, hne]
    simp only [applyAction, typeIs, ht, jsStrEq, hids, jsTruthy, hlen]
    simp only [decide_True, Bool.and_true, if_true]
    simp [jsIncludes_map_str]
  · intro ht hids
    simp [applyAction, typeIs, ht, jsStrEq, hids, jsTruthy, jsLenPos]
  · intro id r ht hid hne hu
    simp [applyAction, typeIs, ht, jsStrEq, hid, jsTruthy, hne]
    rw [show (fun (l : Location) => decide (id = l.location_id)) =
        (fun l => decide (l.location_id = id)) from by funext l; simp [eq_comm]]
    exact find?_eq_of_filter_singleton hu
  · intro r hu
    have h1 : all.filter (fun l => jsIncludes (.arr [.str "LOC-5"]) l.location_id) = [r] := by
      rw [show (fun (l : Location) => jsIncludes (.arr [.str "LOC-5"]) l.location_id) =
          (fun l => decide (l.location_id = "LOC-5")) from by
        funext l; simp [jsIncludes, jsStrEq, eq_comm]]
      exact hu
    have h2 : all.find? (fun l => jsStrEq (.str "LOC-5") l.location_id) = some r := by
      rw [show (fun (l : Location) => jsStrEq (.str "LOC-5") l.location_id) =
          (fun l => decide (l.location_id = "LOC-5")) from by
        funext l; simp [jsStrEq, eq_comm]]
      exact find?_eq_of_filter_singleton hu
    show (⟨all.filter (fun l => jsIncludes (.arr [.str "LOC-5"]) l.location_id),
        all.find? (fun l => jsStrEq (.str "LOC-5") l.location_id), none⟩ : DispState) =
      ⟨[r], some r, none⟩
    rw [h1, h2]

/-- Witness for C5 at a concrete store and the concrete wire actions. -/
theorem dispatch_filter_select_semantics_witness :
    (applyAction [loc5, loc9] ⟨[loc5, loc9], none, none⟩ filterAct5).filteredLocations =
      [loc5, loc9].filter (fun l => decide (l.location_id ∈ (["LOC-5"] : List String))) ∧
    (applyAction [loc5, loc9] ⟨[loc5, loc9], none, none⟩ selectAct5).selectedLocation =
      some loc5 ∧
    runActions [loc5, loc9] [filterAct5, selectAct5] = ⟨[loc5], some loc5, none⟩ :=
  ⟨(dispatch_filter_select_semantics [loc5, loc9] ⟨[loc5, loc9], none, none⟩ filterAct5
      ["LOC-5"]).1 rfl rfl (by decide),
   (dispatch_filter_select_semantics [loc5, loc9] ⟨[loc5, loc9], none, none⟩ selectAct5
      ["LOC-5"]).2.2.1 "LOC-5" loc5 rfl rfl (by decide) (by decide),
   (dispatch_filter_select_semantics [loc5, loc9] ⟨[loc5, loc9], none, none⟩ Js.null
      []).2.2.2 loc5 (by decide)⟩

/-- C7: a `highlight_locations` action and a `filter_locations` action
with the same `location_ids` value have exactly the same effect on the
working state, so replacing one by the other anywhere in an action list
yields an identical dispatcher result. -/
theorem highlight_filter_equivalence (all : List Location) (a b : Js)
    (ht : getField a "type" = some (.str "highlight_locations"))
    (ht' : getField b "type" = some (.str "filter_locations"))
    (hids : getField a "location_ids" = getField b "location_ids") :
    (∀ st : DispState, applyAction all st a = applyAction all st b) ∧
    ∀ (xs ys : List Js), runActions all (xs ++ a :: ys) = runActions all (xs ++ b :: ys) := by
  have key : ∀ st : DispState, applyAction all st a = applyAction all st b := by
    intro st
    simp [applyAction, typeIs, ht, ht', jsStrEq, hids]
  refine ⟨key, ?_⟩
  intro xs ys
  unfold runActions
  rw [List.foldl_append, List.foldl_append, List.foldl_cons, List.foldl_cons, key]

/-- Witness for C7 at concrete actions and a concrete store. -/
theorem highlight_filter_equivalence_witness :
    runActions [loc5, loc9] [highlightAct5] = runActions [loc5, loc9] [filterAct5] :=
  (highlight_filter_equivalence [loc5, loc9] highlightAct5 filterAct5 rfl rfl rfl).2 [] []

/-- C2 counterexample: the dispatcher itself returns the `zoom_map`
bounds verbatim — for the degenerate rectangle its returned bounds have
`north = south = 40` and `east = west = -73`, so they do **not** satisfy
`north > south` and `east > west`. -/
theorem dispatch_zoom_degenerate_counterexample :
    (runActions [] [zoomActionJs]).mapBounds = some zoomBoundsJs ∧
    getField zoomBoundsJs "north" = some (.num 40) ∧
    getField zoomBoundsJs "south" = some (.num 40) ∧
    ¬ ((40 : ℚ) > (40 : ℚ)) ∧
    getField zoomBoundsJs "east" = some (.num (-73)) ∧
    getField zoomBoundsJs "west" = some (.num (-73)) ∧
    ¬ ((-73 : ℚ) > (-73 : ℚ)) :=
  ⟨rfl, rfl, rfl, by norm_num, rfl, rfl, by norm_num⟩

/-- C2 as amended: the dispatcher passes the degenerate bounds through
verbatim; the viewport-resolution step of `handleSearch` then pads each
degenerate axis by the fixed epsilon 0.05 before fitting, and the padded
rectangle does satisfy `north > south` and `east > west`. -/
theorem dispatch_zoom_degenerate_amended :
    (runActions [] [zoomActionJs]).mapBounds = some zoomBoundsJs ∧
    padFitBounds 40 40 (-73) (-73) = ((-73.05, 39.95), (-72.95, 40.05)) ∧
    (40.05 : ℚ) > 39.95 ∧ ((-72.95 : ℚ)) > -73.05 := by
  refine ⟨rfl, ?_, by norm_num, by norm_num⟩
  unfold padFitBounds
  norm_num

/-- C6 as amended: for every envelope whose `response` field is a
**non-empty** string that is not valid JSON, `processAgentResponse` does
not throw and returns the same result as for an empty action set:
`filteredLocations` is the full store, no selection, no bounds, empty
suggestions, and the `🤖 `-marked empty response text. -/
theorem processAgentResponse_invalid_json_default (env : Js) (store : List Location)
    (s : String) (hresp : getField env "response" = some (.str s)) (hne : s ≠ "")
    (hbad : parseJson s = none) :
    processAgentResponse env store = .ok ⟨store, none, "🤖 ", none, .arr []⟩ ∧
    processAgentResponse env store = processAgentResponse (.obj []) store := by
  have hnorm : normalizeEnvelope env = .obj [] := by
    simp [normalizeEnvelope, hresp, jsTruthy, hne, jsonParseCoerce, hbad]
  have hmain : processAgentResponse env store = .ok ⟨store, none, "🤖 ", none, .arr []⟩ := by
    unfold processAgentResponse
    rw [hnorm]
    simp [fieldOr, getField, jsTruthy, runActions, jsToString]
  have hempty : processAgentResponse (.obj []) store =
      .ok ⟨store, none, "🤖 ", none, .arr []⟩ := by
    unfold processAgentResponse
    simp [normalizeEnvelope, selectMeta, getField, fieldOr, jsTruthy, runActions, jsToString]
  exact ⟨hmain, hmain.trans hempty.symm⟩

/-- Witness for the amended C6 at a concrete envelope and store. -/
theorem processAgentResponse_invalid_json_default_witness :
    processAgentResponse (.obj [("response", .str "not json")]) [loc5] =
      .ok ⟨[loc5], none, "🤖 ", none, .arr []⟩ ∧
    processAgentResponse (.obj [("response", .str "not json")]) [loc5] =
      processAgentResponse (.obj []) [loc5] :=
  processAgentResponse_invalid_json_default (.obj [("response", .str "not json")]) [loc5]
    "not json" rfl (by decide) rfl

/-- C6 counterexample: the empty string is a string that is not valid
JSON, yet an envelope carrying it next to a `metadata` payload does not
produce the empty-action-set result — JS truthiness sends the empty
string down the `metadata` branch, whose actions narrow the store. -/
theorem processAgentResponse_empty_response_counterexample :
    parseJson "" = none ∧
    processAgentResponse badEnv [loc5, loc9] =
      .ok ⟨[loc5], none, "🤖 hi", none, .arr []⟩ ∧
    ([loc5] : List Location) ≠ [loc5, loc9] := by
  refine ⟨rfl, ?_, by decide⟩
  unfold processAgentResponse
  simp [badEnv, normalizeEnvelope, selectMeta, getField, fieldOr, jsTruthy, jsToString,
    runActions, applyAction, typeIs, jsStrEq, jsLenPos, jsIncludes, filterAct5,
    loc5, loc9, baseLoc, strIncludes]

/-- C8: in AI-mode, on a non-success HTTP status or a transport error
the coordinator returns exactly the keyword path's `parseQuery` result
with the fixed degraded-mode warning prefix prepended to its
interpretation, and that prefix differs from the agent marker `🤖 `. -/
theorem ai_fallback_degraded_interpretation (q : String) (R : List Location)
    (remote : RemoteOutcome)
    (hfail : remote = .transportError ∨ ∃ body, remote = .httpResponse false body) :
    handleSearchModel true remote q R =
      ((parseQuery q R).locations, (parseQuery q R).filters,
        "⚠️ AI unavailable, using keyword search: " ++ (parseQuery q R).interpretation) ∧
    "⚠️ AI unavailable, using keyword search: " ≠ "🤖 " := by
  constructor
  · rcases hfail with h | ⟨body, h⟩ <;> subst h <;> rfl
  · decide

/-- Witness for C8 at a concrete query, store and failing outcome. -/
theorem ai_fallback_degraded_interpretation_witness :
    handleSearchModel true .transportError "all" [loc5] =
      ((parseQuery "all" [loc5]).locations, (parseQuery "all" [loc5]).filters,
        "⚠️ AI unavailable, using keyword search: " ++
          (parseQuery "all" [loc5]).interpretation) ∧
    "⚠️ AI unavailable, using keyword search: " ≠ "🤖 " :=
  ai_fallback_degraded_interpretation "all" [loc5] .transportError (Or.inl rfl)
